import Mathlib

/-!
Shallow embedding of the Epson TM-U220 serial printer driver
(`src/index.ts`) and proofs about its command catalog, pending buffer,
and connection-lifecycle state machine.

JavaScript strings are modelled as lists of UTF-16 code units
(`List Nat`).  The serial transport is modelled by a record saying, for
each primitive (open / write / drain / close), whether it completes
successfully or calls back with an error message; the driver's
interaction with the transport is recorded as a trace of events.
Error messages travel as Lean `String`s, mirroring the template strings
in the source.
-/

namespace TMU220

/-- A JavaScript string, as its list of UTF-16 code units. -/
abbrev Str := List Nat

/-- Source `export const ESC: string = '\x1B'`. -/
def ESC : Str := [27]

/-- The `Alignment` enum of the source. -/
inductive Alignment
  | LEFT
  | CENTER
  | RIGHT
deriving DecidableEq, Repr

/-- The escape string each `Alignment` enum member denotes:
`LEFT = "\x1B\x61\x00"`, `CENTER = "\x1B\x61\x01"`, `RIGHT = "\x1B\x61\x02"`. -/
def Alignment.code : Alignment → Str
  | .LEFT => [27, 97, 0]
  | .CENTER => [27, 97, 1]
  | .RIGHT => [27, 97, 2]

/-- The `TextSize` enum of the source. -/
inductive TextSize
  | NORMAL
  | DOUBLE_HEIGHT
  | DOUBLE_WIDTH
  | DOUBLE_BOTH
deriving DecidableEq, Repr

/-- The escape string each `TextSize` enum member denotes:
`NORMAL = "\x1B\x21\x00"`, `DOUBLE_HEIGHT = "\x1B\x21\x10"`,
`DOUBLE_WIDTH = "\x1B\x21\x20"`, `DOUBLE_BOTH = "\x1B\x21\x30"`. -/
def TextSize.code : TextSize → Str
  | .NORMAL => [27, 33, 0]
  | .DOUBLE_HEIGHT => [27, 33, 16]
  | .DOUBLE_WIDTH => [27, 33, 32]
  | .DOUBLE_BOTH => [27, 33, 48]

/-- JavaScript `String.fromCharCode(n)`: a single UTF-16 code unit whose
value is the argument reduced modulo 2^16 (ECMAScript `ToUint16`). -/
def fromCharCode (n : Nat) : Str := [n % 65536]

namespace Commands

/-- Source `init: ESC + '@'`. -/
def init : Str := ESC ++ [64]

/-- Source `align: (alignment) => alignment`. -/
def align (a : Alignment) : Str := a.code

/-- Source `setTextSize: (size) => size`. -/
def setTextSize (z : TextSize) : Str := z.code

/-- Source `feedLines: (n) => ESC + 'd' + String.fromCharCode(n)`. -/
def feedLines (n : Nat) : Str := ESC ++ [100] ++ fromCharCode n

/-- Source `line: (text) => text + '\n'`. -/
def line (t : Str) : Str := t ++ [10]

/-- Source `boldOn: ESC + 'E'`. -/
def boldOn : Str := ESC ++ [69]

/-- Source `boldOff: ESC + 'F'`. -/
def boldOff : Str := ESC ++ [70]

end Commands

/-- The `PrinterOptions` interface: `portPath` required, `baudRate` and
`autoOpen` optional. -/
structure PrinterOptions where
  portPath : Str
  baudRate : Option Nat
  autoOpen : Option Bool
deriving DecidableEq, Repr

/-- The options record after the constructor merges defaults
(`baudRate: 9600`, `autoOpen: true`) with the caller's options. -/
structure ResolvedOptions where
  portPath : Str
  baudRate : Nat
  autoOpen : Bool
deriving DecidableEq, Repr

/-- The mutable state of a `PrinterBuffer` session: the pending fragment
buffer, the `port` field (`none` = no handle; `some b` = a `SerialPort`
handle whose `isOpen` is `b`), and whether `openPromise` is non-null. -/
structure PrinterBuffer where
  buffer : List Str
  port : Option Bool
  openPending : Bool
  options : ResolvedOptions
deriving DecidableEq, Repr

/-- Behaviour of the external serial transport during one scenario: for
each primitive, `none` means the callback reports success and `some m`
means it reports an error with message `m`. -/
structure Transport where
  openErr : Option String
  writeErr : Option String
  drainErr : Option String
  closeErr : Option String
deriving DecidableEq, Repr

/-- One observable transport interaction issued by the driver. -/
inductive Ev
  | openCall
  | writeCall (data : Str)
  | drainCall
  | closeCall
deriving DecidableEq, Repr

/-- Whether an event is a transport `open()` invocation. -/
def Ev.isOpen : Ev → Bool
  | .openCall => true
  | _ => false

/-- Whether an event is a transport `write()` invocation. -/
def Ev.isWrite : Ev → Bool
  | .writeCall _ => true
  | _ => false

namespace PrinterBuffer

/-- The constructor body: initialises `buffer = []`, `port = null`,
`openPromise = null` and merges the option defaults.  It performs no
transport operation. -/
def make (o : PrinterOptions) : PrinterBuffer :=
  { buffer := []
    port := none
    openPending := false
    options :=
      { portPath := o.portPath
        baudRate := o.baudRate.getD 9600
        autoOpen := o.autoOpen.getD true } }

/-- The constructor together with the transport events it issues: the
body only assigns fields, so the event list is empty. -/
def construct (o : PrinterOptions) : PrinterBuffer × List Ev :=
  (make o, [])

/-- Source `setupPort`: if a handle already exists do nothing; otherwise build a
`SerialPort` with `autoOpen: false` (a handle that exists but is not
open) and register the `"close"` listener.  Constructing the handle
issues no transport open. -/
def setupPort (s : PrinterBuffer) : PrinterBuffer :=
  match s.port with
  | some _ => s
  | none => { s with port := some false }

/-- The `"close"` listener registered by `setupPort`: on any transport
`close` event, `this.port = null; this.openPromise = null`. -/
def onPortClose (s : PrinterBuffer) : PrinterBuffer :=
  { s with port := none, openPending := false }

/-- The synchronous prefix of `ensurePortOpen`, up to the point where it
returns a promise to the caller: if the port is open, return at once; if
`openPromise` is already set, return that same promise without touching
the transport; otherwise run `setupPort`, store a fresh `openPromise`,
and issue the transport `open()` (the one `Ev.openCall`). -/
def ensurePortOpenStart (s : PrinterBuffer) : PrinterBuffer × List Ev :=
  if s.port = some true then (s, [])
  else if s.openPending then (s, [])
  else ({ setupPort s with openPending := true }, [Ev.openCall])

/-- Completion of the in-flight open, as observed by an awaiting caller:
on success the `"open"` event fires, the handle becomes open and
`openPromise` is cleared; on failure the `open()` callback clears
`openPromise` and rejects with `Failed to open port: ...`. -/
def resolveOpen (t : Transport) (s : PrinterBuffer) :
    Except String Unit × PrinterBuffer :=
  if s.port = some true then (Except.ok (), s)
  else
    match t.openErr with
    | none => (Except.ok (), { s with port := some true, openPending := false })
    | some m =>
        (Except.error ("Failed to open port: " ++ m),
         { s with openPending := false })

/-- Source `ensurePortOpen`, awaited to completion: the synchronous start
followed by the resolution of the (new or joined) open promise. -/
def ensurePortOpen (t : Transport) (s : PrinterBuffer) :
    Except String Unit × PrinterBuffer × List Ev :=
  let p := ensurePortOpenStart s
  let r := resolveOpen t p.1
  (r.1, r.2, p.2)

/-- Source `print()`: empty buffer returns immediately; otherwise await
`ensurePortOpen`, check `port?.isOpen`, write the concatenated buffer,
drain, and clear the buffer only after a successful drain.  Any failure
runs the `catch` block, which nulls `port` and `openPromise` and
rethrows as `Print failed: ...`. -/
def print (t : Transport) (s : PrinterBuffer) :
    Except String Unit × PrinterBuffer × List Ev :=
  if s.buffer = [] then (Except.ok (), s, [])
  else
    let e := ensurePortOpen t s
    match e.1 with
    | Except.error msg =>
        (Except.error ("Print failed: " ++ msg),
         { e.2.1 with port := none, openPending := false }, e.2.2)
    | Except.ok _ =>
        if e.2.1.port = some true then
          let data := e.2.1.buffer.flatten
          let evs := e.2.2 ++ [Ev.writeCall data]
          match t.writeErr with
          | some m =>
              (Except.error ("Print failed: Write error: " ++ m),
               { e.2.1 with port := none, openPending := false }, evs)
          | none =>
              let evs2 := evs ++ [Ev.drainCall]
              match t.drainErr with
              | some m =>
                  (Except.error ("Print failed: Drain error: " ++ m),
                   { e.2.1 with port := none, openPending := false }, evs2)
              | none => (Except.ok (), { e.2.1 with buffer := [] }, evs2)
        else
          (Except.error "Print failed: Port is not open",
           { e.2.1 with port := none, openPending := false }, e.2.2)

/-- Source `close()`: with no handle, resolve immediately without touching the
transport.  Otherwise issue the transport `close()`; on error the
callback nulls `port` and `openPromise` and rejects with
`Failed to close port: ...`; on success the `"close"` event fires and
its listener nulls `port` and `openPromise` and resolves. -/
def close (t : Transport) (s : PrinterBuffer) :
    Except String Unit × PrinterBuffer × List Ev :=
  match s.port with
  | none => (Except.ok (), s, [])
  | some _ =>
      match t.closeErr with
      | some m =>
          (Except.error ("Failed to close port: " ++ m),
           { s with port := none, openPending := false }, [Ev.closeCall])
      | none =>
          (Except.ok (), { s with port := none, openPending := false },
           [Ev.closeCall])

/-- Source `init()`: pushes `Commands.init` and returns the session. -/
def init (s : PrinterBuffer) : PrinterBuffer :=
  { s with buffer := s.buffer ++ [Commands.init] }

/-- Source `align(alignment)`: pushes `Commands.align(alignment)`. -/
def align (s : PrinterBuffer) (a : Alignment) : PrinterBuffer :=
  { s with buffer := s.buffer ++ [Commands.align a] }

/-- Source `size(size)`: pushes `Commands.setTextSize(size)`.  The method takes
no text argument. -/
def size (s : PrinterBuffer) (z : TextSize) : PrinterBuffer :=
  { s with buffer := s.buffer ++ [Commands.setTextSize z] }

/-- Source `text(text)`: pushes `Commands.line(text)`. -/
def text (s : PrinterBuffer) (t : Str) : PrinterBuffer :=
  { s with buffer := s.buffer ++ [Commands.line t] }

/-- Source `feed(n = 2)`: pushes `Commands.feedLines(n)`; the declared default
for `n` is 2. -/
def feed (s : PrinterBuffer) (n : Nat) : PrinterBuffer :=
  { s with buffer := s.buffer ++ [Commands.feedLines n] }

/-- Source `clear()`: replaces the buffer with a fresh empty array. -/
def clear (s : PrinterBuffer) : PrinterBuffer :=
  { s with buffer := [] }

/-- Source `bold()`: pushes `Commands.boldOn`. -/
def bold (s : PrinterBuffer) : PrinterBuffer :=
  { s with buffer := s.buffer ++ [Commands.boldOn] }

/-- Source `boldOff()`: pushes `Commands.boldOff`. -/
def boldOff (s : PrinterBuffer) : PrinterBuffer :=
  { s with buffer := s.buffer ++ [Commands.boldOff] }

end PrinterBuffer

/-- One builder call, for quantifying over call sequences.
`feedDefaultOp` is `feed()` with its default argument. -/
inductive BOp
  | initOp
  | alignOp (a : Alignment)
  | sizeOp (z : TextSize)
  | textOp (t : Str)
  | feedOp (n : Nat)
  | feedDefaultOp
  | boldOp
  | boldOffOp
  | clearOp
deriving DecidableEq, Repr

/-- Dispatch one builder call to the corresponding source method. -/
def applyOp (s : PrinterBuffer) : BOp → PrinterBuffer
  | .initOp => s.init
  | .alignOp a => s.align a
  | .sizeOp z => s.size z
  | .textOp t => s.text t
  | .feedOp n => s.feed n
  | .feedDefaultOp => s.feed 2
  | .boldOp => s.bold
  | .boldOffOp => s.boldOff
  | .clearOp => s.clear

/-- Run a sequence of builder calls left to right. -/
def runOps (s : PrinterBuffer) (ops : List BOp) : PrinterBuffer :=
  ops.foldl applyOp s

/-- The fragments the specification says each builder call contributes
(C7's listing, with the enum byte values of the spec's interface
section). -/
def specFrags : BOp → List Str
  | .initOp => [[27, 64]]
  | .alignOp .LEFT => [[27, 97, 0]]
  | .alignOp .CENTER => [[27, 97, 1]]
  | .alignOp .RIGHT => [[27, 97, 2]]
  | .sizeOp .NORMAL => [[27, 33, 0]]
  | .sizeOp .DOUBLE_HEIGHT => [[27, 33, 16]]
  | .sizeOp .DOUBLE_WIDTH => [[27, 33, 32]]
  | .sizeOp .DOUBLE_BOTH => [[27, 33, 48]]
  | .textOp t => [t ++ [10]]
  | .feedOp n => [[27, 100, n]]
  | .feedDefaultOp => [[27, 100, 2]]
  | .boldOp => [[27, 69]]
  | .boldOffOp => [[27, 70]]
  | .clearOp => []

/-- Side condition of the fragment listing: the call is not a wholesale
clear, and feed counts stay within the one-byte range [0, 255]. -/
def opOk : BOp → Bool
  | .clearOp => false
  | .feedOp n => decide (n ≤ 255)
  | _ => true

/-- The buffer contribution the specification ascribes to the two-argument
form `size(mode, text)`: size-select escape, the text as a line, then the
normal-size escape. -/
def sizeSpecFrags (z : TextSize) (t : Str) : List Str :=
  [z.code, Commands.line t, TextSize.NORMAL.code]

/-- Option record with only the required `portPath` (the string "/d"). -/
def opts0 : PrinterOptions :=
  { portPath := [47, 100], baudRate := none, autoOpen := none }

/-- A transport whose four primitives all report success. -/
def tOk : Transport :=
  { openErr := none, writeErr := none, drainErr := none, closeErr := none }

/-- A transport whose open primitive reports the error "busy". -/
def tOpenFail : Transport := { tOk with openErr := some "busy" }

/-- A transport whose close primitive reports the error "cable". -/
def tCloseFail : Transport := { tOk with closeErr := some "cable" }

/-- A fresh session with one buffered text line ("H"). -/
def sHello : PrinterBuffer := (PrinterBuffer.make opts0).text [72]

/-- The same session after its handle has been opened. -/
def sOpenPort : PrinterBuffer := { sHello with port := some true }

/-- One builder call on any session appends exactly the fragments the
spec lists for it, provided the call is not a clear and feed counts fit
in a byte. -/
theorem applyOp_buffer (s : PrinterBuffer) (op : BOp) (h : opOk op = true) :
    (applyOp s op).buffer = s.buffer ++ specFrags op := by
  cases op with
  | initOp => rfl
  | alignOp a => cases a <;> rfl
  | sizeOp z => cases z <;> rfl
  | textOp t => rfl
  | feedOp n =>
      have hn : n ≤ 255 := of_decide_eq_true h
      have hmod : n % 65536 = n := Nat.mod_eq_of_lt (by omega)
      simp [applyOp, PrinterBuffer.feed, Commands.feedLines, fromCharCode,
        ESC, specFrags, hmod]
  | feedDefaultOp => rfl
  | boldOp => rfl
  | boldOffOp => rfl
  | clearOp => simp [opOk] at h

/-- Running a clear-free, in-range sequence of builder calls appends the
spec-listed fragments in call order. -/
theorem runOps_buffer (ops : List BOp) : ∀ s : PrinterBuffer,
    (∀ op ∈ ops, opOk op = true) →
    (runOps s ops).buffer = s.buffer ++ ops.flatMap specFrags := by
  induction ops with
  | nil => intro s _; simp [runOps]
  | cons op rest ih =>
      intro s h
      have h1 : opOk op = true := h op (List.mem_cons_self _ _)
      have h2 : ∀ x ∈ rest, opOk x = true := fun x hx =>
        h x (List.mem_cons_of_mem _ hx)
      have hstep : runOps s (op :: rest) = runOps (applyOp s op) rest := rfl
      rw [hstep, ih (applyOp s op) h2, applyOp_buffer s op h1]
      simp

/-- C7: on a fresh session, any sequence of builder calls without a
wholesale clear (and with feed counts in [0, 255]) leaves the pending
buffer equal to exactly the listed fragments in call order — `init()`
gives ESC '@', `text(s)` gives `s` plus one newline, `align`/`size`
give their fixed 3-byte escapes, `feed(n)` gives ESC 'd' and the literal
byte `n` (default 2), and `bold()`/`boldOff()` give ESC 'E' / ESC 'F';
`clear()` is the only wholesale removal. -/
theorem c7_builder_order (o : PrinterOptions) (ops : List BOp)
    (h : ∀ op ∈ ops, opOk op = true) :
    (runOps (PrinterBuffer.make o) ops).buffer = ops.flatMap specFrags ∧
    (∀ s : PrinterBuffer, (applyOp s BOp.clearOp).buffer = []) := by
  refine ⟨?_, fun s => rfl⟩
  have hrun := runOps_buffer ops (PrinterBuffer.make o) h
  simpa [PrinterBuffer.make] using hrun

/-- Witness for C7: `init(); text("A"); feed(); feed(1)` on a fresh
session yields exactly those four fragments in order. -/
theorem c7_builder_order_witness :
    (runOps (PrinterBuffer.make opts0)
        [BOp.initOp, BOp.textOp [65], BOp.feedDefaultOp, BOp.feedOp 1]).buffer
      = [[27, 64], [65, 10], [27, 100, 2], [27, 100, 1]] := by
  have h := (c7_builder_order opts0
      [BOp.initOp, BOp.textOp [65], BOp.feedDefaultOp, BOp.feedOp 1]
      (by decide)).1
  exact h.trans (by decide)

/-- C10: `Commands.feedLines n` is exactly ESC, 'd', then the single
UTF-16 code unit `n % 2^16`, and `feed n` appends exactly that fragment;
in particular 300 stays 300 (reduced mod 65536, not mod 256). -/
theorem c10_feedLines_mod (n : Nat) (s : PrinterBuffer) :
    Commands.feedLines n = [27, 100, n % 65536] ∧
    (s.feed n).buffer = s.buffer ++ [[27, 100, n % 65536]] ∧
    Commands.feedLines 300 = [27, 100, 300] := by
  refine ⟨rfl, ?_, by decide⟩
  simp [PrinterBuffer.feed, Commands.feedLines, fromCharCode, ESC]

/-- C9 counterexample: `size` takes no text argument; at the concrete
call `size(DOUBLE_HEIGHT)` on a fresh session the buffer holds a single
fragment and is not the spec-described triple (size escape, text line
"W", normal-size escape). -/
theorem c9_size_counterexample :
    ((PrinterBuffer.make opts0).size TextSize.DOUBLE_HEIGHT).buffer
        ≠ sizeSpecFrags TextSize.DOUBLE_HEIGHT [87] ∧
    ((PrinterBuffer.make opts0).size TextSize.DOUBLE_HEIGHT).buffer.length = 1 ∧
    TextSize.NORMAL.code ∉
      ((PrinterBuffer.make opts0).size TextSize.DOUBLE_HEIGHT).buffer := by
  decide

/-- C9 amended: `size(mode)` appends exactly the size-select escape for
the mode and returns the session (all other session state unchanged); it
accepts no text, so no text line and no normal-size restore are
appended. -/
theorem c9_size_amended (s : PrinterBuffer) (z : TextSize) :
    (s.size z).buffer = s.buffer ++ [z.code] ∧
    (s.size z).port = s.port ∧
    (s.size z).openPending = s.openPending ∧
    (s.size z).options = s.options := by
  exact ⟨rfl, rfl, rfl, rfl⟩

/-- C4: `print()` on an empty buffer resolves immediately, issues no
transport event, and leaves the session exactly as it was. -/
theorem c4_print_empty (t : Transport) (s : PrinterBuffer)
    (h : s.buffer = []) :
    PrinterBuffer.print t s = (Except.ok (), s, []) := by
  simp [PrinterBuffer.print, h]

/-- Witness for C4 at a fresh session and the all-success transport. -/
theorem c4_print_empty_witness :
    PrinterBuffer.print tOk (PrinterBuffer.make opts0)
      = (Except.ok (), PrinterBuffer.make opts0, []) :=
  c4_print_empty tOk (PrinterBuffer.make opts0) rfl

/-- C1: from a Closed session (no handle, no in-flight open), a first
ensure-open start issues exactly one transport open, and a second
concurrent ensure-open start joins the in-flight open: it issues no
transport event and leaves the session state untouched, so the two calls
together issue exactly one open. -/
theorem c1_single_open (s : PrinterBuffer)
    (hp : s.port = none) (hq : s.openPending = false) :
    (PrinterBuffer.ensurePortOpenStart s).2 = [Ev.openCall] ∧
    (PrinterBuffer.ensurePortOpenStart
        (PrinterBuffer.ensurePortOpenStart s).1).2 = [] ∧
    (PrinterBuffer.ensurePortOpenStart
        (PrinterBuffer.ensurePortOpenStart s).1).1
      = (PrinterBuffer.ensurePortOpenStart s).1 := by
  obtain ⟨buf, port, pend, opts⟩ := s
  simp_all [PrinterBuffer.ensurePortOpenStart, PrinterBuffer.setupPort]

/-- Witness for C1 at a freshly constructed session. -/
theorem c1_single_open_witness :
    (PrinterBuffer.ensurePortOpenStart (PrinterBuffer.make opts0)).2
        = [Ev.openCall] ∧
    (PrinterBuffer.ensurePortOpenStart
        (PrinterBuffer.ensurePortOpenStart (PrinterBuffer.make opts0)).1).2
        = [] :=
  ⟨(c1_single_open (PrinterBuffer.make opts0) rfl rfl).1,
   (c1_single_open (PrinterBuffer.make opts0) rfl rfl).2.1⟩

/-- C3: with a non-empty buffer and a transport that succeeds at open,
write and drain, `print()` resolves successfully, issues exactly one
write whose payload is the concatenation of the buffered fragments in
insertion order, and clears the buffer — while the same call against a
transport whose drain fails leaves the buffer intact, so the clear
happens only upon drain completion. -/
theorem c3_print_success (t : Transport) (s : PrinterBuffer)
    (hb : s.buffer ≠ []) (ho : t.openErr = none) (hw : t.writeErr = none)
    (hd : t.drainErr = none) :
    (PrinterBuffer.print t s).1 = Except.ok () ∧
    (PrinterBuffer.print t s).2.1.buffer = [] ∧
    (PrinterBuffer.print t s).2.2.filter Ev.isWrite
        = [Ev.writeCall s.buffer.flatten] ∧
    (PrinterBuffer.print { t with drainErr := some "boom" } s).2.1.buffer
        = s.buffer := by
  obtain ⟨buf, port, pend, opts⟩ := s
  obtain ⟨oe, we, de, ce⟩ := t
  cases ho; cases hw; cases hd
  cases buf with
  | nil => exact absurd rfl hb
  | cons f rest =>
      rcases port with _ | b
      · cases pend <;>
          simp [PrinterBuffer.print, PrinterBuffer.ensurePortOpen,
            PrinterBuffer.ensurePortOpenStart, PrinterBuffer.resolveOpen,
            PrinterBuffer.setupPort, Ev.isWrite]
      · cases b <;> cases pend <;>
          simp [PrinterBuffer.print, PrinterBuffer.ensurePortOpen,
            PrinterBuffer.ensurePortOpenStart, PrinterBuffer.resolveOpen,
            PrinterBuffer.setupPort, Ev.isWrite]

/-- Witness for C3: the session holding the line "H" printed through the
all-success transport. -/
theorem c3_print_success_witness :
    (PrinterBuffer.print tOk sHello).1 = Except.ok () ∧
    (PrinterBuffer.print tOk sHello).2.1.buffer = [] ∧
    (PrinterBuffer.print tOk sHello).2.2.filter Ev.isWrite
        = [Ev.writeCall sHello.buffer.flatten] ∧
    (PrinterBuffer.print { tOk with drainErr := some "boom" } sHello).2.1.buffer
        = sHello.buffer :=
  c3_print_success tOk sHello (by decide) rfl rfl rfl

/-- Associativity of string concatenation, for normalising the staged
error messages. -/
theorem string_append_assoc (a b c : String) : a ++ (b ++ c) = (a ++ b) ++ c := by
  rcases a with ⟨la⟩; rcases b with ⟨lb⟩; rcases c with ⟨lc⟩
  show String.mk (la ++ (lb ++ lc)) = String.mk ((la ++ lb) ++ lc)
  rw [List.append_assoc]

/-- C2: whenever `print()` rejects, the pending buffer is exactly as
before the call, the handle and the in-flight-open bookkeeping are
discarded (`port` and `openPromise` nulled), and the single error names
the failed stage together with the transport's underlying message. -/
theorem c2_print_failure (t : Transport) (s : PrinterBuffer) (e : String)
    (h : (PrinterBuffer.print t s).1 = Except.error e) :
    (PrinterBuffer.print t s).2.1.buffer = s.buffer ∧
    (PrinterBuffer.print t s).2.1.port = none ∧
    (PrinterBuffer.print t s).2.1.openPending = false ∧
    ((∃ m, t.openErr = some m ∧
        e = "Print failed: Failed to open port: " ++ m) ∨
     (∃ m, t.writeErr = some m ∧
        e = "Print failed: Write error: " ++ m) ∨
     (∃ m, t.drainErr = some m ∧
        e = "Print failed: Drain error: " ++ m) ∨
     e = "Print failed: Port is not open") := by
  obtain ⟨buf, port, pend, opts⟩ := s
  obtain ⟨oe, we, de, ce⟩ := t
  cases buf with
  | nil => simp [PrinterBuffer.print] at h
  | cons f rest =>
      rcases port with _ | b
      · cases pend <;> cases oe <;> cases we <;> cases de <;>
          simp_all [PrinterBuffer.print, PrinterBuffer.ensurePortOpen,
            PrinterBuffer.ensurePortOpenStart, PrinterBuffer.resolveOpen,
            PrinterBuffer.setupPort, string_append_assoc]
      · cases b <;> cases pend <;> cases oe <;> cases we <;> cases de <;>
          simp_all [PrinterBuffer.print, PrinterBuffer.ensurePortOpen,
            PrinterBuffer.ensurePortOpenStart, PrinterBuffer.resolveOpen,
            PrinterBuffer.setupPort, string_append_assoc]

/-- Witness for C2: printing the session holding "H" through the
transport whose open fails with "busy". -/
theorem c2_print_failure_witness :
    (PrinterBuffer.print tOpenFail sHello).2.1.buffer = sHello.buffer ∧
    (PrinterBuffer.print tOpenFail sHello).2.1.port = none ∧
    (PrinterBuffer.print tOpenFail sHello).2.1.openPending = false := by
  have h := c2_print_failure tOpenFail sHello
      ("Print failed: " ++ ("Failed to open port: " ++ "busy")) rfl
  exact ⟨h.1, h.2.1, h.2.2.1⟩

/-- C5: `close()` with no handle resolves at once without any transport
event; in every case the session ends Closed (handle and in-flight-open
bookkeeping nulled) — even when the transport close fails, whose error
is still surfaced — and a second `close()` is a transport-free no-op. -/
theorem c5_close (t : Transport) (s : PrinterBuffer) (m : String) :
    (s.port = none → PrinterBuffer.close t s = (Except.ok (), s, [])) ∧
    (PrinterBuffer.close t s).2.1.port = none ∧
    (s.port ≠ none → (PrinterBuffer.close t s).2.1.openPending = false) ∧
    (t.closeErr = some m → s.port ≠ none →
      (PrinterBuffer.close t s).1
        = Except.error ("Failed to close port: " ++ m)) ∧
    (t.closeErr = none → (PrinterBuffer.close t s).1 = Except.ok ()) ∧
    PrinterBuffer.close t (PrinterBuffer.close t s).2.1
      = (Except.ok (), (PrinterBuffer.close t s).2.1, []) := by
  obtain ⟨buf, port, pend, opts⟩ := s
  obtain ⟨oe, we, de, ce⟩ := t
  rcases port with _ | b <;> cases ce <;>
    simp_all [PrinterBuffer.close]

/-- Witness for C5: closing an open-handle session through the transport
whose close fails with "cable", and closing a fresh (handle-less)
session. -/
theorem c5_close_witness :
    (PrinterBuffer.close tCloseFail sOpenPort).2.1.port = none ∧
    (PrinterBuffer.close tCloseFail sOpenPort).1
        = Except.error ("Failed to close port: " ++ "cable") ∧
    PrinterBuffer.close tCloseFail (PrinterBuffer.make opts0)
        = (Except.ok (), PrinterBuffer.make opts0, []) := by
  have h1 := c5_close tCloseFail sOpenPort "cable"
  have h2 := c5_close tCloseFail (PrinterBuffer.make opts0) "cable"
  exact ⟨h1.2.1, h1.2.2.2.1 rfl (by decide), h2.1 rfl⟩

/-- C6: the transport's unsolicited close event nulls the handle and the
in-flight-open bookkeeping, after which an ensure-open start issues a
fresh transport open, and a subsequent `print()` on a non-empty buffer
issues exactly one fresh transport open. -/
theorem c6_unsolicited_close (s : PrinterBuffer) (t : Transport)
    (hb : s.buffer ≠ []) :
    (PrinterBuffer.onPortClose s).port = none ∧
    (PrinterBuffer.onPortClose s).openPending = false ∧
    (PrinterBuffer.ensurePortOpenStart (PrinterBuffer.onPortClose s)).2
        = [Ev.openCall] ∧
    (PrinterBuffer.print t (PrinterBuffer.onPortClose s)).2.2.filter Ev.isOpen
        = [Ev.openCall] := by
  obtain ⟨buf, port, pend, opts⟩ := s
  obtain ⟨oe, we, de, ce⟩ := t
  cases buf with
  | nil => exact absurd rfl hb
  | cons f rest =>
      cases oe <;> cases we <;> cases de <;>
        simp [PrinterBuffer.onPortClose, PrinterBuffer.print,
          PrinterBuffer.ensurePortOpen, PrinterBuffer.ensurePortOpenStart,
          PrinterBuffer.resolveOpen, PrinterBuffer.setupPort, Ev.isOpen]

/-- Witness for C6: the open session holding "H" after an unsolicited
close event, printed through the all-success transport. -/
theorem c6_unsolicited_close_witness :
    (PrinterBuffer.onPortClose sOpenPort).port = none ∧
    (PrinterBuffer.print tOk
        (PrinterBuffer.onPortClose sOpenPort)).2.2.filter Ev.isOpen
      = [Ev.openCall] := by
  have h := c6_unsolicited_close sOpenPort tOk (by decide)
  exact ⟨h.1, h.2.2.2⟩

/-- C8: constructing a session with `autoOpen: true` (the documented
default, here passed explicitly) issues no transport event at all —
the handle is not even created — and the transport open is first issued
by the first `print()`; the same holds with `autoOpen: false`. -/
theorem c8_autoOpen_ignored :
    (PrinterBuffer.construct
        { portPath := [47], baudRate := none, autoOpen := some true }).2
      = [] ∧
    (PrinterBuffer.construct
        { portPath := [47], baudRate := none, autoOpen := some true }).1.port
      = none ∧
    (PrinterBuffer.construct
        { portPath := [47], baudRate := none, autoOpen := some true
        }).1.options.autoOpen = true ∧
    (PrinterBuffer.print tOk
        ((PrinterBuffer.construct
            { portPath := [47], baudRate := none, autoOpen := some true
            }).1.text [72])).2.2.filter Ev.isOpen
      = [Ev.openCall] ∧
    (PrinterBuffer.construct
        { portPath := [47], baudRate := none, autoOpen := some false }).2
      = [] := by
  decide

end TMU220
